import Mathlib

/-!
Shallow embedding of `eventually-util/src/inmemory/projector.rs`
(the `ProjectorBuilder` / `Projector` in-memory projection engine)
and proofs of the specified properties.

Modelling conventions:
* An event carries a `Nat` sequence number (the Rust `u32` counter; the code
  never arithmetic-overflows it, it only loads, compares and stores it).
* The event store's one-off stream and the subscriber's live stream are
  external collaborators; per their interface contract they are modelled as
  `Except Err (List (Except Err (Event E)))`: opening the stream may fail,
  and each item of an open stream is either an event or an error.
* The tokio `watch` channel is an external collaborator, modelled from the
  spec's description of its interface: the channel holds one current value,
  a newly-created receiver handle observes the current value first, and
  `broadcast` fails exactly when no receiver handle is alive.  The projector
  model carries the channel's current value (`tx_value`), the number of live
  receiver handles (`receivers`), and a ghost history `broadcasts` of the
  successfully broadcast snapshots (used to state counting properties; it
  does not influence behaviour).
* `run`'s `expect` on a failed broadcast (a panic) is modelled by the whole
  run returning `none`.
-/

/-- An event as seen by the projector: a payload together with the
`sequence_number()` accessor's value. -/
structure Event (E : Type) where
  sequence_number : Nat
  payload : E
  deriving Repr, DecidableEq

/-- The `Projection` trait: a default/initial state and the pure fold
`project(state, event) -> state`. -/
structure Projection (P E : Type) where
  d : P
  project : P → Event E → P

/-- The `Select` argument of `EventStore::stream_all`. -/
inductive Select where
  | All
  deriving Repr, DecidableEq

/-- The `EventStore` collaborator at its interface boundary:
`stream_all(selection)` returns (or fails to return) a finite stream whose
items are events or errors. -/
structure Store (E Err : Type) where
  stream_all : Select → Except Err (List (Except Err (Event E)))

/-- The `EventSubscriber` collaborator at its interface boundary:
`subscribe_all()` returns (or fails to return) the live stream. -/
structure Subscriber (E Err : Type) where
  subscribe_all : Except Err (List (Except Err (Event E)))

/-- The `Projector` struct: watch-channel value `tx_value` (the `tx`/`rx`
pair's current snapshot), the count of live receiver handles (the struct
retains `rx`, so construction starts at 1), shared store and subscriber
handles, the projection `state`, the `last_sequence_number` watermark
(`AtomicU32`), and the ghost list of successfully broadcast snapshots. -/
structure Projector (P E Err : Type) where
  tx_value : P
  receivers : Nat
  store : Store E Err
  subscriber : Subscriber E Err
  state : P
  last_sequence_number : Nat
  broadcasts : List P

/-- The `ProjectorBuilder` struct: shared (`Arc`) store and subscriber. -/
structure ProjectorBuilder (E Err : Type) where
  store : Store E Err
  subscriber : Subscriber E Err

/-- `ProjectorBuilder::new`. -/
def ProjectorBuilder.new (store : Store E Err) (subscriber : Subscriber E Err) :
    ProjectorBuilder E Err :=
  { store := store, subscriber := subscriber }

/-- `Projector::new`: default state, `channel(state.clone())` (so the channel
holds the default state and the retained `rx` makes one live receiver), and a
watermark initialised to `Default::default()` for `AtomicU32`, i.e. 0. -/
def Projector.new (pr : Projection P E) (store : Store E Err)
    (subscriber : Subscriber E Err) : Projector P E Err :=
  { tx_value := pr.d
    receivers := 1
    store := store
    subscriber := subscriber
    state := pr.d
    last_sequence_number := 0
    broadcasts := [] }

/-- `ProjectorBuilder::build`: clones the shared handles and delegates to
`Projector::new`. -/
def ProjectorBuilder.build (b : ProjectorBuilder E Err) (pr : Projection P E) :
    Projector P E Err :=
  Projector.new pr b.store b.subscriber

/-- The value a freshly created watch handle delivers first. -/
structure WatchHandle (P : Type) where
  first : P
  deriving Repr, DecidableEq

/-- `Projector::watch`: clones the retained receiver; per the watch-channel
interface the new handle delivers the channel's current snapshot first. -/
def Projector.watch (p : Projector P E Err) : WatchHandle P :=
  { first := p.tx_value }

/-- `Sender::broadcast` on the watch channel, modelled from the spec's
interface description: fails iff no receiver handle is alive, otherwise
replaces the channel's current value (and is recorded in the ghost
history). -/
def Projector.broadcast (p : Projector P E Err) (s : P) :
    Option (Projector P E Err) :=
  if p.receivers = 0 then none
  else some { p with tx_value := s, broadcasts := p.broadcasts ++ [s] }

/-- `AtomicU32::compare_and_swap(expected, new)` on a value `current`. -/
def compareAndSwap (current expected new : Nat) : Nat :=
  if current = expected then new else current

/-- One iteration of the `while let` loop body of `Projector::run`, for an
event item that was not an error: load the watermark, discard the event if
its sequence number is strictly below it, otherwise fold it into the state,
compare-and-swap the watermark, and broadcast the new state (`none` models
the `expect` panic on a failed broadcast). -/
def runStep (pr : Projection P E) (p : Projector P E Err) (event : Event E) :
    Option (Projector P E Err) :=
  let expected_sequence_number := p.last_sequence_number
  let event_sequence_number := event.sequence_number
  if event_sequence_number < expected_sequence_number then
    some p
  else
    let state := pr.project p.state event
    let lsn := compareAndSwap p.last_sequence_number expected_sequence_number
      event_sequence_number
    Projector.broadcast
      { p with state := state, last_sequence_number := lsn } state

/-- The `while let Some(event) = stream.next()` loop of `Projector::run` over
the merged stream: an error item makes the run return that error (state so
far retained), an event item goes through `runStep`. -/
def runAux (pr : Projection P E) (p : Projector P E Err) :
    List (Except Err (Event E)) → Option (Projector P E Err × Except Err Unit)
  | [] => some (p, Except.ok ())
  | item :: rest =>
    match item with
    | Except.error e => some (p, Except.error e)
    | Except.ok event =>
      match runStep pr p event with
      | none => none
      | some p1 => runAux pr p1 rest

/-- `Projector::run`: open the subscription first, then the one-off stream,
chain them (one-off first), and consume the merged stream.  A failure to
open either stream is returned as the run's error; `none` models the panic
on a failed broadcast. -/
def Projector.run (pr : Projection P E) (p : Projector P E Err) :
    Option (Projector P E Err × Except Err Unit) :=
  match p.subscriber.subscribe_all with
  | Except.error e => some (p, Except.error e)
  | Except.ok subscription =>
    match p.store.stream_all Select.All with
    | Except.error e => some (p, Except.error e)
    | Except.ok one_off_stream =>
      runAux pr p (one_off_stream ++ subscription)

/-! ## Concrete fixtures used for witnesses and concrete runs -/

/-- A concrete projection over `P = List Nat`: the state records the
sequence numbers of the events folded into it, in application order, so a
final state exhibits exactly which events were applied and how often. -/
def traceProj : Projection (List Nat) Unit :=
  { d := [], project := fun s e => s ++ [e.sequence_number] }

/-- A concrete event with the given sequence number. -/
def ev (n : Nat) : Event Unit :=
  { sequence_number := n, payload := () }

/-- A store whose one-off stream yields exactly the given items. -/
def mkStore (l : List (Except Unit (Event Unit))) : Store Unit Unit :=
  { stream_all := fun _ => Except.ok l }

/-- A subscriber whose live stream yields exactly the given items. -/
def mkSub (l : List (Except Unit (Event Unit))) : Subscriber Unit Unit :=
  { subscribe_all := Except.ok l }

/-- A freshly built concrete projector whose watermark has been set to `n`
(the other fields as `Projector.new` leaves them). -/
def pAt (n : Nat) : Projector (List Nat) Unit Unit :=
  { Projector.new traceProj (mkStore []) (mkSub []) with last_sequence_number := n }

/-! ## Helper lemmas about one loop iteration -/

/-- The discard branch: a sequence number strictly below the watermark
leaves the projector untouched. -/
lemma runStep_discard (pr : Projection P E) (p : Projector P E Err) (e : Event E)
    (h : e.sequence_number < p.last_sequence_number) : runStep pr p e = some p := by
  simp [runStep, h]

/-- The apply branch: with a live receiver and a sequence number not below
the watermark, the iteration folds the event, advances the watermark to the
event sequence number and broadcasts the new state. -/
lemma runStep_apply (pr : Projection P E) (p : Projector P E Err) (e : Event E)
    (hr : p.receivers ≠ 0) (h : ¬ e.sequence_number < p.last_sequence_number) :
    runStep pr p e =
      some { p with tx_value := pr.project p.state e,
                    state := pr.project p.state e,
                    last_sequence_number := e.sequence_number,
                    broadcasts := p.broadcasts ++ [pr.project p.state e] } := by
  simp [runStep, h, compareAndSwap, Projector.broadcast, hr]

/-- A successful iteration never decreases the watermark and never changes
the receiver count. -/
lemma runStep_some_inv (pr : Projection P E) (p p1 : Projector P E Err)
    (e : Event E) (hstep : runStep pr p e = some p1) :
    p.last_sequence_number ≤ p1.last_sequence_number ∧ p1.receivers = p.receivers := by
  by_cases h : e.sequence_number < p.last_sequence_number
  · rw [runStep_discard pr p e h] at hstep
    cases hstep
    exact ⟨le_refl _, rfl⟩
  · by_cases hr : p.receivers = 0
    · simp [runStep, h, Projector.broadcast, hr] at hstep
    · rw [runStep_apply pr p e hr h] at hstep
      cases hstep
      exact ⟨Nat.le_of_not_lt h, rfl⟩

/-! ## Claim theorems (one per claim, in claim order where settled) -/

/-- C6: an event whose sequence number is strictly less than the current
watermark at arrival is discarded by the loop body of `run`: the projector
is returned unchanged — same state, same channel value, and no broadcast is
recorded. -/
theorem strictly_below_watermark_discarded (pr : Projection P E)
    (p : Projector P E Err) (e : Event E)
    (h : e.sequence_number < p.last_sequence_number) :
    runStep pr p e = some p :=
  runStep_discard pr p e h

/-- C6 witness: a concrete event below a concrete watermark is discarded. -/
theorem strictly_below_watermark_discarded_witness :
    runStep traceProj (pAt 5) (ev 2) = some (pAt 5) :=
  strictly_below_watermark_discarded traceProj (pAt 5) (ev 2) (by decide)

/-- C3: the duplicate filter admits equality.  An event `e` whose sequence
number equals the loaded watermark (e.g. a duplicate of the most recently
applied event) is folded into the state again and the result broadcast,
while an event `e1` strictly below the watermark is discarded. -/
theorem equal_watermark_event_refolded (pr : Projection P E)
    (p : Projector P E Err) (e e1 : Event E) (hr : p.receivers ≠ 0)
    (heq : e.sequence_number = p.last_sequence_number)
    (hlt : e1.sequence_number < p.last_sequence_number) :
    runStep pr p e =
      some { p with tx_value := pr.project p.state e,
                    state := pr.project p.state e,
                    last_sequence_number := e.sequence_number,
                    broadcasts := p.broadcasts ++ [pr.project p.state e] } ∧
    runStep pr p e1 = some p :=
  ⟨runStep_apply pr p e hr (by omega), runStep_discard pr p e1 hlt⟩

/-- C3 witness: at watermark 5, a duplicate with sequence number 5 is
re-applied and broadcast while sequence number 2 is discarded. -/
theorem equal_watermark_event_refolded_witness :
    runStep traceProj (pAt 5) (ev 5) =
      some { pAt 5 with
             tx_value := traceProj.project (pAt 5).state (ev 5),
             state := traceProj.project (pAt 5).state (ev 5),
             last_sequence_number := (ev 5).sequence_number,
             broadcasts := (pAt 5).broadcasts ++
               [traceProj.project (pAt 5).state (ev 5)] } ∧
    runStep traceProj (pAt 5) (ev 2) = some (pAt 5) :=
  equal_watermark_event_refolded traceProj (pAt 5) (ev 5) (ev 2)
    (by decide) (by decide) (by decide)

/-- C7: the watermark starts at the zero value of its type and a successful
loop iteration never moves it below its previously loaded value. -/
theorem watermark_init_zero_and_monotone (pr : Projection P E)
    (store : Store E Err) (subscriber : Subscriber E Err)
    (p p1 : Projector P E Err) (e : Event E)
    (hstep : runStep pr p e = some p1) :
    (Projector.new pr store subscriber).last_sequence_number = 0 ∧
    p.last_sequence_number ≤ p1.last_sequence_number :=
  ⟨rfl, (runStep_some_inv pr p p1 e hstep).1⟩

/-- The projector produced by one apply-branch iteration from `pAt 0` on the
event with sequence number 3. -/
def c7step : Projector (List Nat) Unit Unit :=
  { pAt 0 with
    tx_value := [3], state := [3], last_sequence_number := 3,
    broadcasts := [[3]] }

/-- C7 witness: a fresh projector has watermark 0 and the concrete iteration
from watermark 0 on sequence number 3 does not decrease the watermark. -/
theorem watermark_init_zero_and_monotone_witness :
    (Projector.new traceProj (mkStore []) (mkSub [])).last_sequence_number = 0 ∧
    (pAt 0).last_sequence_number ≤ c7step.last_sequence_number :=
  watermark_init_zero_and_monotone traceProj (mkStore []) (mkSub [])
    (pAt 0) c7step (ev 3) (by rfl)

/-! ## The catch-up-only fold (C4) -/

/-- Over a stream of plain events that all lie at or above the watermark,
with strictly increasing sequence numbers, the loop applies every event in
order: the final state is the left fold of the whole list. -/
lemma runAux_all_applied (pr : Projection P E) :
    ∀ (evs : List (Event E)) (p : Projector P E Err),
      p.receivers ≠ 0 →
      (∀ e ∈ evs, p.last_sequence_number ≤ e.sequence_number) →
      List.Pairwise (fun a b => a.sequence_number < b.sequence_number) evs →
      ∃ p1, runAux pr p (evs.map Except.ok) = some (p1, Except.ok ()) ∧
        p1.state = evs.foldl pr.project p.state
  | [], p, _, _, _ => ⟨p, rfl, rfl⟩
  | e :: rest, p, hr, hge, hpw => by
    have hnl : ¬ e.sequence_number < p.last_sequence_number :=
      Nat.not_lt.mpr (hge e (List.mem_cons_self e rest))
    have hstep := runStep_apply pr p e hr hnl
    have hhead := (List.pairwise_cons.mp hpw).1
    obtain ⟨p1, hrun, hstate⟩ := runAux_all_applied pr rest
      { p with tx_value := pr.project p.state e,
               state := pr.project p.state e,
               last_sequence_number := e.sequence_number,
               broadcasts := p.broadcasts ++ [pr.project p.state e] }
      hr (fun e1 he1 => Nat.le_of_lt (hhead e1 he1)) (List.pairwise_cons.mp hpw).2
    exact ⟨p1, by simp [runAux, hstep, hrun], by simp [hstate]⟩

/-- C4: when every event is delivered by the catch-up stream in strictly
increasing sequence-number order and the live stream is empty, `run`
completes normally and the final state is the left fold of all the events
over the default state. -/
theorem catchup_only_run_folds_all_events (pr : Projection P E)
    (evs : List (Event E))
    (hinc : List.Pairwise (fun a b => a.sequence_number < b.sequence_number) evs) :
    (Projector.run pr (Projector.new pr
        { stream_all := fun _ => Except.ok (evs.map Except.ok) }
        { subscribe_all := Except.ok ([] : List (Except Err (Event E))) })).map
      (fun x => (x.1.state, x.2)) =
      some (evs.foldl pr.project pr.d, Except.ok ()) := by
  obtain ⟨p1, hrun, hstate⟩ := runAux_all_applied pr evs
    (Projector.new pr
      { stream_all := fun _ => Except.ok (evs.map Except.ok) }
      { subscribe_all := Except.ok ([] : List (Except Err (Event E))) })
    (by simp [Projector.new]) (fun e _ => Nat.zero_le _) hinc
  simp only [Projector.run, Projector.new, List.append_nil] at hrun ⊢
  rw [hrun]
  simp [hstate, Projector.new]

/-- C4 witness: a concrete two-event catch-up run folds both events. -/
theorem catchup_only_run_folds_all_events_witness :
    (Projector.run traceProj (Projector.new traceProj
        { stream_all := fun _ => Except.ok ([ev 1, ev 2].map Except.ok) }
        { subscribe_all := Except.ok ([] : List (Except Unit (Event Unit))) })).map
      (fun x => (x.1.state, x.2)) =
      some ([ev 1, ev 2].foldl traceProj.project traceProj.d, Except.ok ()) :=
  catchup_only_run_folds_all_events traceProj [ev 1, ev 2] (by decide)

/-! ## Failure propagation (C5) -/

/-- C5: if the catch-up stream yields sequence numbers 1, 2, 3 and then an
error on the fourth read, `run` returns that error; the final watermark is
3, the state is the fold of exactly those three events (nothing is rolled
back), and exactly three broadcasts occurred — none for the failed read —
whatever the live stream holds. -/
theorem stream_error_propagates_retaining_state (pr : Projection P E)
    (e1 e2 e3 : Event E) (err : Err) (live : List (Except Err (Event E)))
    (h1 : e1.sequence_number = 1) (h2 : e2.sequence_number = 2)
    (h3 : e3.sequence_number = 3) :
    (Projector.run pr (Projector.new pr
        { stream_all := fun _ =>
            Except.ok [Except.ok e1, Except.ok e2, Except.ok e3,
              Except.error err] }
        { subscribe_all := Except.ok live })).map
      (fun x => (x.2, x.1.last_sequence_number, x.1.state,
        x.1.broadcasts.length)) =
      some (Except.error err, 3,
        pr.project (pr.project (pr.project pr.d e1) e2) e3, 3) := by
  simp [Projector.run, Projector.new, runAux, runStep, compareAndSwap,
    Projector.broadcast, h1, h2, h3]

/-- C5 witness at concrete events, error and empty live stream. -/
theorem stream_error_propagates_retaining_state_witness :
    (Projector.run traceProj (Projector.new traceProj
        { stream_all := fun _ =>
            Except.ok [Except.ok (ev 1), Except.ok (ev 2), Except.ok (ev 3),
              Except.error ()] }
        { subscribe_all := Except.ok ([] : List (Except Unit (Event Unit))) })).map
      (fun x => (x.2, x.1.last_sequence_number, x.1.state,
        x.1.broadcasts.length)) =
      some (Except.error (), 3,
        traceProj.project (traceProj.project
          (traceProj.project traceProj.d (ev 1)) (ev 2)) (ev 3), 3) :=
  stream_error_propagates_retaining_state traceProj (ev 1) (ev 2) (ev 3) () []
    rfl rfl rfl

/-! ## The watch channel holds the latest snapshot (C8) -/

/-- Appending a snapshot makes it the channel history tail. -/
lemma getLastD_snoc (l : List α) (a d : α) : (l ++ [a]).getLastD d = a := by
  induction l with
  | nil => rfl
  | cons x xs ih =>
    cases xs with
    | nil => rfl
    | cons y ys => simp [List.cons_append, List.getLastD]

/-- One successful iteration keeps the channel value equal to the most
recent broadcast snapshot (with fallback `v` when none happened yet). -/
lemma runStep_tx_last (pr : Projection P E) (p p1 : Projector P E Err)
    (e : Event E) (v : P) (hstep : runStep pr p e = some p1)
    (hp : p.tx_value = p.broadcasts.getLastD v) :
    p1.tx_value = p1.broadcasts.getLastD v := by
  by_cases h : e.sequence_number < p.last_sequence_number
  · rw [runStep_discard pr p e h] at hstep
    cases hstep
    exact hp
  · by_cases hr : p.receivers = 0
    · simp [runStep, h, Projector.broadcast, hr] at hstep
    · rw [runStep_apply pr p e hr h] at hstep
      cases hstep
      exact (getLastD_snoc p.broadcasts _ v).symm

/-- The whole loop keeps the channel value equal to the most recent
broadcast snapshot. -/
lemma runAux_tx_last (pr : Projection P E) (v : P) :
    ∀ (l : List (Except Err (Event E))) (p p1 : Projector P E Err)
      (r : Except Err Unit),
      p.tx_value = p.broadcasts.getLastD v →
      runAux pr p l = some (p1, r) →
      p1.tx_value = p1.broadcasts.getLastD v
  | [], p, p1, r, hp, hrun => by
    cases hrun
    exact hp
  | Except.error e :: rest, p, p1, r, hp, hrun => by
    cases hrun
    exact hp
  | Except.ok e :: rest, p, p1, r, hp, hrun => by
    rcases hstep : runStep pr p e with _ | p2
    · simp [runAux, hstep] at hrun
    · have hrun2 : runAux pr p2 rest = some (p1, r) := by
        simpa [runAux, hstep] using hrun
      exact runAux_tx_last pr v rest p2 p1 r
        (runStep_tx_last pr p p2 e v hstep hp) hrun2

/-- C8: a watch handle is created with the channel's current snapshot as its
first value: on a fresh projector that is the default state, and at any
point of a run it is the single most recent broadcast snapshot (still the
default state when nothing was broadcast yet) — never a backlog. -/
theorem watch_first_value_is_latest_snapshot (pr : Projection P E)
    (store : Store E Err) (subscriber : Subscriber E Err)
    (l : List (Except Err (Event E))) (p1 : Projector P E Err)
    (r : Except Err Unit)
    (hrun : runAux pr (Projector.new pr store subscriber) l = some (p1, r)) :
    (Projector.new pr store subscriber).watch.first = pr.d ∧
    p1.watch.first = p1.broadcasts.getLastD pr.d :=
  ⟨rfl, runAux_tx_last pr pr.d l (Projector.new pr store subscriber) p1 r rfl hrun⟩

/-- C8 witness: on a fresh projector the first watched value is the default
state, and after the concrete one-event run the first watched value is the
latest broadcast snapshot. -/
theorem watch_first_value_is_latest_snapshot_witness :
    (Projector.new traceProj (mkStore []) (mkSub [])).watch.first = traceProj.d ∧
    c7step.watch.first = c7step.broadcasts.getLastD traceProj.d :=
  watch_first_value_is_latest_snapshot traceProj (mkStore []) (mkSub [])
    [Except.ok (ev 3)] c7step (Except.ok ()) (by rfl)

/-! ## The broadcast panic branch is unreachable (C9) -/

/-- With a live receiver, an iteration always produces a projector (the
broadcast cannot fail) and keeps the receiver count. -/
lemma runStep_some_of_receivers (pr : Projection P E) (p : Projector P E Err)
    (e : Event E) (hr : p.receivers ≠ 0) :
    ∃ p1, runStep pr p e = some p1 ∧ p1.receivers = p.receivers := by
  by_cases h : e.sequence_number < p.last_sequence_number
  · exact ⟨p, runStep_discard pr p e h, rfl⟩
  · exact ⟨_, runStep_apply pr p e hr h, rfl⟩

/-- With a live receiver, the whole loop always returns a result. -/
lemma runAux_some_of_receivers (pr : Projection P E) :
    ∀ (l : List (Except Err (Event E))) (p : Projector P E Err),
      p.receivers ≠ 0 → ∃ r, runAux pr p l = some r
  | [], p, _ => ⟨(p, Except.ok ()), rfl⟩
  | Except.error e :: _, p, _ => ⟨(p, Except.error e), rfl⟩
  | Except.ok e :: rest, p, hr => by
    obtain ⟨p1, hstep, hrec⟩ := runStep_some_of_receivers pr p e hr
    obtain ⟨r, hrest⟩ := runAux_some_of_receivers pr rest p1 (hrec ▸ hr)
    exact ⟨r, by simp [runAux, hstep, hrest]⟩

/-- C9: the struct retains its own receiver handle (receiver count 1 at
construction, preserved by every iteration), so broadcasting can never fail
during `run`: the panic branch guarding the broadcast is unreachable and
`run` always returns an actual result. -/
theorem broadcast_never_fails_in_run (pr : Projection P E)
    (store : Store E Err) (subscriber : Subscriber E Err) :
    (Projector.new pr store subscriber).receivers = 1 ∧
    ∃ r, Projector.run pr (Projector.new pr store subscriber) = some r := by
  refine ⟨rfl, ?_⟩
  rcases hsub : subscriber.subscribe_all with e | subscription
  · refine ⟨(Projector.new pr store subscriber, Except.error e), ?_⟩
    simp [Projector.run, Projector.new, hsub]
  · rcases hst : store.stream_all Select.All with e | one_off_stream
    · refine ⟨(Projector.new pr store subscriber, Except.error e), ?_⟩
      simp [Projector.run, Projector.new, hsub, hst]
    · obtain ⟨r, hrun⟩ := runAux_some_of_receivers pr
        (one_off_stream ++ subscription)
        (Projector.new pr store subscriber) (by simp [Projector.new])
      refine ⟨r, ?_⟩
      simp only [Projector.run, Projector.new, hsub, hst]
      exact hrun

/-! ## The builder (C10) -/

/-- C10: every `build` call returns a fresh engine: default projection
state, channel holding the default snapshot, zero watermark, no recorded
broadcasts, the retained receiver, and the same shared store and subscriber
handles as the builder (`build` is pure, so the builder itself is untouched
and can be called repeatedly). -/
theorem build_returns_fresh_default_engine (b : ProjectorBuilder E Err)
    (pr : Projection P E) :
    (b.build pr).state = pr.d ∧
    (b.build pr).tx_value = pr.d ∧
    (b.build pr).last_sequence_number = 0 ∧
    (b.build pr).broadcasts = ([] : List P) ∧
    (b.build pr).receivers = 1 ∧
    (b.build pr).store = b.store ∧
    (b.build pr).subscriber = b.subscriber :=
  ⟨rfl, rfl, rfl, rfl, rfl, rfl, rfl⟩

/-! ## The overlap double-application (C1, C2) -/

/-- C1: run on the failing input for the spec invariant.  The event with
sequence number 1 is delivered by both streams; on its second arrival the
watermark is 1, the strict filter admits it, and the final state records
sequence number 1 twice — the invariant instead requires each distinct
sequence number at or below the watermark (here only 1) applied exactly
once, i.e. final state `[1]`. -/
theorem run_refolds_duplicate_of_last_applied_event :
    (Projector.run traceProj (Projector.new traceProj
        (mkStore [Except.ok (ev 1)]) (mkSub [Except.ok (ev 1)]))).map
      (fun x => (x.1.state, x.1.last_sequence_number, x.2)) =
      some ([1, 1], 1, Except.ok ()) := by
  rfl

/-- C2: run on the overlap input, catch-up sequence numbers `[1, 2, 3]` and
live `[2, 3, 4]`.  The live event with sequence number 2 is discarded
(2 < 3), but the one with sequence number 3 equals the watermark and is
folded a second time: the final state is `[1, 2, 3, 3, 4]` with five
broadcasts, where the claim requires each of the four distinct events
exactly once and exactly four broadcasts. -/
theorem overlap_run_folds_watermark_duplicate_twice :
    (Projector.run traceProj (Projector.new traceProj
        (mkStore [Except.ok (ev 1), Except.ok (ev 2), Except.ok (ev 3)])
        (mkSub [Except.ok (ev 2), Except.ok (ev 3), Except.ok (ev 4)]))).map
      (fun x => (x.1.state, x.1.broadcasts.length, x.2)) =
      some ([1, 2, 3, 3, 4], 5, Except.ok ()) := by
  rfl
